import Mathlib

/-!
Verification development for the inventory_sync repository: a shallow
embedding, in Lean 4, of the file locator, inventory validator and
synchronizer, sales aggregator, order fulfillment engine, printer resolver
and the cross-thread pending-action mailbox of `src/inventory_sync.py`,
together with theorems settling the specification claims about them.

Modelling conventions:
- Spreadsheet cells already parsed by pandas appear as Lean values
  (`String` for text with a missing cell modelled as the empty string,
  `Int` for integer cells, `ℚ` for float cells).
- Python string operations `.strip()`, `.lower()`, `in` (substring) and
  `.endswith` are embedded as executable functions on `String` below.
- External effects (PDF rendering, printer dispatch, the remote store's
  responses) are supplied by an explicit environment record; the remote
  orders table is an explicit `List Order` threaded through the functions.
-/

namespace InventorySync

/-- `listStartsWith pat l` : the char list `pat` is a prefix of `l`. -/
def listStartsWith : List Char → List Char → Bool
  | [], _ => true
  | _ :: _, [] => false
  | a :: as, b :: bs => a = b && listStartsWith as bs

/-- `listHasSub l pat` : the char list `pat` occurs contiguously in `l`
(Python's `pat in l`). -/
def listHasSub : List Char → List Char → Bool
  | [], pat => pat.isEmpty
  | c :: rest, pat => listStartsWith pat (c :: rest) || listHasSub rest pat

/-- Python's substring test `pat in s`. -/
def hasSub (s pat : String) : Bool :=
  listHasSub s.data pat.data

/-- Python's `s.lower()` (ASCII-adequate model). -/
def pyLower (s : String) : String :=
  String.mk (s.data.map Char.toLower)

/-- Python's `s.strip()`: remove leading and trailing whitespace. -/
def pyStrip (s : String) : String :=
  String.mk (((s.data.dropWhile Char.isWhitespace).reverse.dropWhile
    Char.isWhitespace).reverse)

/-- Python's `s.endswith(suffix)`. -/
def pyEndsWith (s suffix : String) : Bool :=
  listStartsWith suffix.data.reverse s.data.reverse

/-!
## Printer Resolver — `get_actual_printer_name` (src/inventory_sync.py:620)

The source obtains `available_printers` from the OS; the embedding takes
that list as an argument.  The chain is: empty list → return the input
name unresolved; exact match; first case-insensitive exact match; first
case-insensitive substring match (configured name contained in an
available name); otherwise return the configured name unchanged.
-/

def get_actual_printer_name (printer_name : String)
    (available_printers : List String) : String :=
  if available_printers.isEmpty then printer_name
  else if available_printers.contains printer_name then printer_name
  else
    match available_printers.find? (fun p => pyLower p = pyLower printer_name) with
    | some p => p
    | none =>
      match available_printers.find? (fun p => hasSub (pyLower p) (pyLower printer_name)) with
      | some p => p
      | none => printer_name

end InventorySync

namespace InventorySync

/-- C7: the printer-resolution fallback chain: exact match first, then the
first case-insensitive exact match, then the first case-insensitive
substring match, otherwise the configured name is returned unchanged; and
concretely, configured name "canon tr4700 series" against available list
["Canon TR4700 series"] resolves to "Canon TR4700 series". -/
theorem printer_resolution_chain (printer_name : String)
    (available : List String) :
    (available.contains printer_name = true →
      get_actual_printer_name printer_name available = printer_name) ∧
    (available.contains printer_name = false →
      ∀ p, available.find? (fun q => pyLower q = pyLower printer_name) = some p →
        get_actual_printer_name printer_name available = p) ∧
    (available.contains printer_name = false →
      available.find? (fun q => pyLower q = pyLower printer_name) = none →
      ∀ p, available.find? (fun q => hasSub (pyLower q) (pyLower printer_name)) = some p →
        get_actual_printer_name printer_name available = p) ∧
    (available.contains printer_name = false →
      available.find? (fun q => pyLower q = pyLower printer_name) = none →
      available.find? (fun q => hasSub (pyLower q) (pyLower printer_name)) = none →
      get_actual_printer_name printer_name available = printer_name) ∧
    (get_actual_printer_name "canon tr4700 series" ["Canon TR4700 series"]
      = "Canon TR4700 series") := by
  refine ⟨?_, ?_, ?_, ?_, ?_⟩
  · intro hmem
    have hmem' : printer_name ∈ available := by simpa using hmem
    have hne : available.isEmpty = false := by
      cases available with
      | nil => simp at hmem'
      | cons a l => simp [List.isEmpty]
    simp [get_actual_printer_name, hne, hmem']
  · intro hmem p hfind
    have hmem' : printer_name ∉ available := by simpa using hmem
    have hne : available.isEmpty = false := by
      cases available with
      | nil => simp [List.find?] at hfind
      | cons a l => simp [List.isEmpty]
    simp [get_actual_printer_name, hne, hmem', hfind]
  · intro hmem hci p hfind
    have hmem' : printer_name ∉ available := by simpa using hmem
    have hne : available.isEmpty = false := by
      cases available with
      | nil => simp [List.find?] at hfind
      | cons a l => simp [List.isEmpty]
    simp [get_actual_printer_name, hne, hmem', hci, hfind]
  · intro hmem hci hsub
    have hmem' : printer_name ∉ available := by simpa using hmem
    cases hempty : available.isEmpty with
    | true => simp [get_actual_printer_name, hempty]
    | false => simp [get_actual_printer_name, hempty, hmem', hci, hsub]
  · decide

/-- Witness for C7: the concrete case-insensitive resolution, obtained by
applying the chain theorem at the concrete input. -/
theorem printer_resolution_chain_witness :
    get_actual_printer_name "canon tr4700 series" ["Canon TR4700 series"]
      = "Canon TR4700 series" :=
  (printer_resolution_chain "canon tr4700 series" ["Canon TR4700 series"]).2.2.2.2

/-!
## Concurrency Coordinator — the pending-action mailbox

`pending_action` is a single global slot (src/inventory_sync.py:2496-2505)
written by `request_show_settings` / `request_show_orders` / the updater
thread, and drained by `check_pending_actions`
(src/inventory_sync.py:2587-2604), which tkinter re-schedules every 100 ms
on the UI thread.  A drained slot executes `do_show_settings`,
`do_show_orders` or `prompt_update` and is cleared before execution.
-/

/-- The values the `pending_action` slot can hold: the strings
`"settings"`, `"orders"` and the `("update", version, url)` tuple. -/
inductive PendingAction where
  | settings : PendingAction
  | orders : PendingAction
  | update (version url : String) : PendingAction
deriving DecidableEq, Repr

/-- The mailbox state: `none` models Python `pending_action = None`. -/
abbrev MailboxState := Option PendingAction

/-- `request_show_settings` (src/inventory_sync.py:2496): overwrite the
slot with the settings request, regardless of its previous value. -/
def request_show_settings (_ : MailboxState) : MailboxState :=
  some PendingAction.settings

/-- `request_show_orders` (src/inventory_sync.py:2502): overwrite the slot
with the orders request, regardless of its previous value. -/
def request_show_orders (_ : MailboxState) : MailboxState :=
  some PendingAction.orders

/-- One tick of `check_pending_actions` (src/inventory_sync.py:2587):
read the slot; if nonempty, clear it and execute the corresponding UI
action.  Returns the new slot state and the list of actions executed on
this tick (the `do_show_*` / `prompt_update` call). -/
def check_pending_actions (s : MailboxState) : MailboxState × List PendingAction :=
  match s with
  | some PendingAction.settings => (none, [PendingAction.settings])
  | some PendingAction.orders => (none, [PendingAction.orders])
  | some (PendingAction.update v u) => (none, [PendingAction.update v u])
  | none => (none, [])

/-- `n` consecutive drain ticks, collecting every action executed. -/
def drainMany : Nat → MailboxState → MailboxState × List PendingAction
  | 0, s => (s, [])
  | n + 1, s =>
    let t := check_pending_actions s
    let r := drainMany n t.1
    (r.1, t.2 ++ r.2)

/-- C9: the single-slot mailbox is last-write-wins: a request overwrites
any unconsumed prior request, a drain tick executes at most one action,
and `request(settings)` immediately followed by `request(orders)` with no
drain in between leads — over any number of subsequent drain ticks — to
exactly the one action `orders` being executed; `settings` is never
executed. -/
theorem mailbox_last_write_wins :
    (∀ s : MailboxState, request_show_settings s = some PendingAction.settings) ∧
    (∀ s : MailboxState, request_show_orders s = some PendingAction.orders) ∧
    (∀ s : MailboxState, (check_pending_actions s).2.length ≤ 1) ∧
    (∀ (s : MailboxState) (n : Nat),
      (drainMany (n + 1) (request_show_orders (request_show_settings s))).2
        = [PendingAction.orders]) := by
  refine ⟨fun s => rfl, fun s => rfl, ?_, ?_⟩
  · intro s
    match s with
    | none => simp [check_pending_actions]
    | some PendingAction.settings => simp [check_pending_actions]
    | some PendingAction.orders => simp [check_pending_actions]
    | some (PendingAction.update v u) => simp [check_pending_actions]
  · intro s n
    have hdrained : ∀ m : Nat, drainMany m (none : MailboxState) = (none, []) := by
      intro m
      induction m with
      | zero => rfl
      | succ k ih => simp [drainMany, check_pending_actions, ih]
    simp [request_show_settings, request_show_orders, drainMany,
      check_pending_actions, hdrained n]

/-!
## Descending sort by an integer key

Python's `list.sort(key=..., reverse=True)` and the remote store's
`order by ... desc` are modelled by an insertion sort into descending key
order.  Only the multiset of elements and the sortedness matter to the
claims (ties may come out in any order), so any correct sort is a faithful
model.
-/

/-- Insert `a` into `l`, keeping keys in descending order. -/
def insertDescBy (key : α → Int) (a : α) : List α → List α
  | [] => [a]
  | b :: bs => if key b ≤ key a then a :: b :: bs else b :: insertDescBy key a bs

/-- Sort `l` into descending key order. -/
def sortDescBy (key : α → Int) : List α → List α
  | [] => []
  | a :: as => insertDescBy key a (sortDescBy key as)

theorem mem_insertDescBy (key : α → Int) (a x : α) (l : List α) :
    x ∈ insertDescBy key a l ↔ x = a ∨ x ∈ l := by
  induction l with
  | nil => simp [insertDescBy]
  | cons b bs ih =>
    by_cases h : key b ≤ key a
    · simp [insertDescBy, h]
    · simp [insertDescBy, h, ih]
      tauto

theorem mem_sortDescBy (key : α → Int) (x : α) (l : List α) :
    x ∈ sortDescBy key l ↔ x ∈ l := by
  induction l with
  | nil => simp [sortDescBy]
  | cons a as ih => simp [sortDescBy, mem_insertDescBy, ih]

theorem sorted_insertDescBy (key : α → Int) (a : α) (l : List α)
    (h : l.Sorted (fun x y => key y ≤ key x)) :
    (insertDescBy key a l).Sorted (fun x y => key y ≤ key x) := by
  induction l with
  | nil => simp [insertDescBy]
  | cons b bs ih =>
    rw [List.sorted_cons] at h
    by_cases hba : key b ≤ key a
    · rw [insertDescBy]
      simp only [hba, if_true, List.sorted_cons]
      refine ⟨?_, h⟩
      intro x hx
      rcases List.mem_cons.mp hx with hx | hx
      · exact hx ▸ hba
      · exact le_trans (h.1 x hx) hba
    · rw [insertDescBy]
      simp only [hba, if_false, List.sorted_cons]
      refine ⟨?_, ih h.2⟩
      intro x hx
      rcases (mem_insertDescBy key a x bs).mp hx with hx | hx
      · exact hx ▸ le_of_lt (lt_of_not_le hba)
      · exact h.1 x hx

theorem sorted_sortDescBy (key : α → Int) (l : List α) :
    (sortDescBy key l).Sorted (fun x y => key y ≤ key x) := by
  induction l with
  | nil => simp [sortDescBy]
  | cons a as ih => exact sorted_insertDescBy key a _ ih

/-- The head of a descending-sorted nonempty list carries the maximum key. -/
theorem sortDescBy_head_max (key : α → Int) (a : α) (l rest : List α)
    (hsort : sortDescBy key l = a :: rest) :
    ∀ x ∈ l, key x ≤ key a := by
  intro x hx
  have hx' : x ∈ a :: rest := by
    rw [← hsort, mem_sortDescBy]
    exact hx
  rcases List.mem_cons.mp hx' with hx' | hx'
  · exact hx' ▸ le_refl _
  · have := sorted_sortDescBy key l
    rw [hsort, List.sorted_cons] at this
    exact this.1 x hx'

/-!
## File Locator — `find_all_inventory_files` (src/inventory_sync.py:190)
and `get_latest_inventory_file` (src/inventory_sync.py:204)

A directory listing is a list of (file name, modification time) entries;
`os.listdir` + `os.path.getmtime` are modelled by that listing.  A
candidate is an entry whose name contains `file_pattern` and ends in
".xlsx"; the source stores `(full path, mtime, name)` triples.
-/

/-- A directory entry as seen by `os.listdir`/`os.path.getmtime`. -/
structure DirEntry where
  name : String
  mtime : Int
deriving DecidableEq, Repr

/-- `os.path.join(watch_folder, file_name)` (path separator modelled
as "/"). -/
def joinPath (folder name : String) : String :=
  folder ++ "/" ++ name

/-- `find_all_inventory_files`: every listing entry whose name contains
`file_pattern` and ends with ".xlsx", as (path, mtime, name) triples. -/
def find_all_inventory_files (watch_folder : String) (listing : List DirEntry)
    (file_pattern : String) : List (String × Int × String) :=
  listing.filterMap (fun e =>
    if hasSub e.name file_pattern && pyEndsWith e.name ".xlsx" then
      some (joinPath watch_folder e.name, e.mtime, e.name)
    else none)

/-- `get_latest_inventory_file`: `(None, [])` when no candidate exists;
otherwise sort candidates newest-first by modification time and return
(head's path, all candidate paths). -/
def get_latest_inventory_file (watch_folder : String) (listing : List DirEntry)
    (file_pattern : String) : Option String × List String :=
  let files := find_all_inventory_files watch_folder listing file_pattern
  if files.isEmpty then (none, [])
  else
    match sortDescBy (fun f => f.2.1) files with
    | [] => (none, [])
    | f :: rest => (some f.1, (f :: rest).map (fun g => g.1))

/-- C6: the file locator's candidate set is exactly the listing entries
whose name contains the configured pattern and ends with ".xlsx"; the
authoritative file returned by `get_latest_inventory_file` is a candidate
of maximum modification time whose path heads the returned candidate-path
list; and an empty candidate set yields `(none, [])` without error. -/
theorem file_locator_candidates_and_latest (watch_folder file_pattern : String)
    (listing : List DirEntry) :
    (∀ p m n, (p, m, n) ∈ find_all_inventory_files watch_folder listing file_pattern ↔
      (DirEntry.mk n m ∈ listing ∧ p = joinPath watch_folder n ∧
        hasSub n file_pattern = true ∧ pyEndsWith n ".xlsx" = true)) ∧
    (∀ a allPaths,
      get_latest_inventory_file watch_folder listing file_pattern = (some a, allPaths) →
      ∃ f ∈ find_all_inventory_files watch_folder listing file_pattern,
        f.1 = a ∧
        (∀ g ∈ find_all_inventory_files watch_folder listing file_pattern,
          g.2.1 ≤ f.2.1) ∧
        (∀ x, x ∈ allPaths ↔
          ∃ g ∈ find_all_inventory_files watch_folder listing file_pattern, g.1 = x)) ∧
    (find_all_inventory_files watch_folder listing file_pattern = [] →
      get_latest_inventory_file watch_folder listing file_pattern = (none, [])) := by
  refine ⟨?_, ?_, ?_⟩
  · intro p m n
    constructor
    · intro hmem
      rcases List.mem_filterMap.mp hmem with ⟨e, he, hfe⟩
      by_cases hc : hasSub e.name file_pattern && pyEndsWith e.name ".xlsx"
      · simp only [hc, if_true, Option.some.injEq, Prod.mk.injEq] at hfe
        obtain ⟨hp, hm1, hn1⟩ := hfe
        rcases Bool.and_eq_true .. |>.mp hc with ⟨h1, h2⟩
        refine ⟨?_, ?_, ?_, ?_⟩
        · have : e = DirEntry.mk n m := by
            cases e
            simp only [DirEntry.mk.injEq]
            exact ⟨hn1, hm1⟩
          exact this ▸ he
        · rw [← hp, hn1]
        · rw [← hn1]; exact h1
        · rw [← hn1]; exact h2
      · simp only [hc, if_false] at hfe
        exact absurd hfe (Option.noConfusion)
    · rintro ⟨he, hp, h1, h2⟩
      refine List.mem_filterMap.mpr ⟨DirEntry.mk n m, he, ?_⟩
      simp only [h1, h2, Bool.and_self, if_true]
      rw [hp]
  · intro a allPaths heq
    rw [get_latest_inventory_file] at heq
    set files := find_all_inventory_files watch_folder listing file_pattern with hfiles
    by_cases hne : files.isEmpty
    · simp only [hne, if_true] at heq
      exact absurd (congrArg Prod.fst heq) (by simp)
    · simp only [hne, if_false] at heq
      rcases hsort : sortDescBy (fun f => f.2.1) files with _ | ⟨f, rest⟩
      · rw [hsort] at heq
        exact absurd (congrArg Prod.fst heq) (by simp)
      · rw [hsort] at heq
        have hfa : f.1 = a := by
          have := congrArg Prod.fst heq
          simpa using this
        have hall : allPaths = (f :: rest).map (fun g => g.1) := by
          have := congrArg Prod.snd heq
          simpa using this.symm
        have hfmem : f ∈ files := by
          rw [← mem_sortDescBy (fun f => f.2.1) f files, hsort]
          exact List.mem_cons_self f rest
        refine ⟨f, hfmem, hfa, ?_, ?_⟩
        · exact sortDescBy_head_max (fun f => f.2.1) f files rest hsort
        · intro x
          rw [hall]
          constructor
          · intro hx
            rcases List.mem_map.mp hx with ⟨g, hg, hgx⟩
            have : g ∈ files := by
              rw [← mem_sortDescBy (fun f => f.2.1) g files, hsort]
              exact hg
            exact ⟨g, this, hgx⟩
          · rintro ⟨g, hg, hgx⟩
            refine List.mem_map.mpr ⟨g, ?_, hgx⟩
            rw [← hsort, mem_sortDescBy]
            exact hg
  · intro hempty
    rw [get_latest_inventory_file, hempty]
    simp

/-- Witness for C6: a concrete two-file listing where only the matching
".xlsx" files are candidates, and the newest one is authoritative. -/
theorem file_locator_candidates_and_latest_witness :
    (("dir/inv_a.xlsx", (5 : Int), "inv_a.xlsx") ∈
      find_all_inventory_files "dir" [DirEntry.mk "inv_a.xlsx" 5,
        DirEntry.mk "notes.txt" 9, DirEntry.mk "inv_b.xlsx" 3] "inv") ∧
    (∃ f ∈ find_all_inventory_files "dir" [DirEntry.mk "inv_a.xlsx" 5,
        DirEntry.mk "notes.txt" 9, DirEntry.mk "inv_b.xlsx" 3] "inv",
      f.1 = "dir/inv_a.xlsx" ∧
      (∀ g ∈ find_all_inventory_files "dir" [DirEntry.mk "inv_a.xlsx" 5,
          DirEntry.mk "notes.txt" 9, DirEntry.mk "inv_b.xlsx" 3] "inv",
        g.2.1 ≤ f.2.1) ∧
      (∀ x, x ∈ ["dir/inv_a.xlsx", "dir/inv_b.xlsx"] ↔
        ∃ g ∈ find_all_inventory_files "dir" [DirEntry.mk "inv_a.xlsx" 5,
          DirEntry.mk "notes.txt" 9, DirEntry.mk "inv_b.xlsx" 3] "inv", g.1 = x)) := by
  constructor
  · exact (file_locator_candidates_and_latest "dir" "inv"
      [DirEntry.mk "inv_a.xlsx" 5, DirEntry.mk "notes.txt" 9,
        DirEntry.mk "inv_b.xlsx" 3]).1 "dir/inv_a.xlsx" 5 "inv_a.xlsx" |>.mpr
      (by refine ⟨?_, rfl, ?_, ?_⟩ <;> decide)
  · exact (file_locator_candidates_and_latest "dir" "inv"
      [DirEntry.mk "inv_a.xlsx" 5, DirEntry.mk "notes.txt" 9,
        DirEntry.mk "inv_b.xlsx" 3]).2.1 "dir/inv_a.xlsx"
      ["dir/inv_a.xlsx", "dir/inv_b.xlsx"] (by decide)

/-!
## Inventory rows, validator and synchronizer

A parsed inventory spreadsheet row.  pandas cell parsing happens upstream
of the embedded functions: text cells are `String` (a missing/NaN cell is
the empty string, so Python's `str(row.get(...)) if pd.notna(...) else
default` collapses to the field itself), integer-coerced cells are `Int`,
float-coerced cells are `ℚ`, and the `Gross Margin` cell arrives already
normalized to a fraction (the `"%"`-string branch of `clean_data`).
-/

structure InvRow where
  product_name : String
  sku : String
  vendor : String
  brand : String
  price : ℚ
  cost : ℚ
  total_stock : Int
  committed : Int
  open_stock : Int
  qty_on_order : Int
  gross_margin : ℚ
  total_retail : ℚ
  total_cost : ℚ
deriving DecidableEq, Repr

/-- The canonical record `clean_data` builds for the `inventory` table
upsert (src/inventory_sync.py:342-356). -/
structure InventoryRecord where
  product_name : String
  sku : String
  vendor : String
  brand : String
  price : ℚ
  cost : ℚ
  total_stock : Int
  committed : Int
  open_stock : Int
  qty_on_order : Int
  gross_margin : ℚ
  total_retail : ℚ
  total_cost : ℚ
deriving DecidableEq, Repr

/-- The record built from one row by `clean_data`'s loop body: the sku is
stripped, the other cells are carried over. -/
def cleanRecord (r : InvRow) : InventoryRecord :=
  { product_name := r.product_name
    sku := pyStrip r.sku
    vendor := r.vendor
    brand := r.brand
    price := r.price
    cost := r.cost
    total_stock := r.total_stock
    committed := r.committed
    open_stock := r.open_stock
    qty_on_order := r.qty_on_order
    gross_margin := r.gross_margin
    total_retail := r.total_retail
    total_cost := r.total_cost }

/-- `clean_data` (src/inventory_sync.py:332): map each row to a record and
keep it only when its (stripped) sku is non-empty (Python truthiness of
`record["sku"]`). -/
def clean_data (rows : List InvRow) : List InventoryRecord :=
  rows.filterMap (fun row =>
    let record := cleanRecord row
    if record.sku = "" then none else some record)

/-- The toppenish (primary-location) marker test used by the validator's
scan (src/inventory_sync.py:386): name stripped+lowered contains
"toppenish" and stripped SKU equals "99999". -/
def isToppenishMarker (r : InvRow) : Bool :=
  hasSub (pyLower (pyStrip r.product_name)) "toppenish" && pyStrip r.sku = "99999"

/-- The yakima (secondary-location) marker test used by the validator's
scan (src/inventory_sync.py:390): name stripped+lowered contains "yakima"
and stripped SKU equals "9999". -/
def isYakimaMarker (r : InvRow) : Bool :=
  hasSub (pyLower (pyStrip r.product_name)) "yakima" && pyStrip r.sku = "9999"

/-- The validator's scan loop (src/inventory_sync.py:380-391): iterate all
rows; each matching marker row overwrites the recorded quantity, so the
last matching row wins.  Returns (toppenish qty, yakima qty), `none` when
the marker never occurred. -/
def scanMarkers (rows : List InvRow) : Option Int × Option Int :=
  rows.foldl (fun acc row =>
    let acc1 := if isToppenishMarker row then (some row.total_stock, acc.2) else acc
    if isYakimaMarker row then (acc1.1, some row.total_stock) else acc1)
    (none, none)

/-- `validate_inventory_file` (src/inventory_sync.py:362): returns
(is_valid, error_type, message) with error_type one of `none`,
`some "wrong_file"`, `some "no_marker"`. -/
def validate_inventory_file (rows : List InvRow) : Bool × Option String × String :=
  match scanMarkers rows with
  | (none, _) => (false, some "no_marker", "No inventory ID markers found")
  | (some _, none) => (false, some "no_marker", "No inventory ID markers found")
  | (some t, some y) =>
    if t = 1 ∧ y = 0 then
      (true, none, "Correct inventory file (Toppenish=1, Yakima=0)")
    else if y = 1 then
      (false, some "wrong_file",
        "Wrong inventory file detected (Yakima=" ++ toString y ++
          ", Toppenish=" ++ toString t ++ ")")
    else
      (false, some "wrong_file",
        "Invalid marker quantities (Toppenish=" ++ toString t ++
          ", Yakima=" ++ toString y ++ ")")

/-- The quantity carried by the last row of `rows` matching marker test
`p`, if any: what the validator's overwrite-on-match scan records. -/
def lastMarkerQty (p : InvRow → Bool) (rows : List InvRow) : Option Int :=
  ((rows.filter p).map (fun r => r.total_stock)).getLast?

theorem scanMarkers_append_single (l : List InvRow) (r : InvRow) :
    scanMarkers (l ++ [r]) =
      ((if isToppenishMarker r then some r.total_stock else (scanMarkers l).1),
       (if isYakimaMarker r then some r.total_stock else (scanMarkers l).2)) := by
  rw [scanMarkers, List.foldl_append]
  rcases hacc : (scanMarkers l) with ⟨t0, y0⟩
  rw [scanMarkers] at hacc
  rw [hacc]
  by_cases ht : isToppenishMarker r <;> by_cases hy : isYakimaMarker r <;>
    simp [ht, hy]

theorem lastMarkerQty_append_single (p : InvRow → Bool) (l : List InvRow)
    (r : InvRow) :
    lastMarkerQty p (l ++ [r]) =
      if p r then some r.total_stock else lastMarkerQty p l := by
  by_cases hp : p r
  · simp [lastMarkerQty, List.filter_append, hp]
  · simp [lastMarkerQty, List.filter_append, hp]

/-- The validator's scan records, for each marker, the quantity of the
last matching row (or `none` when no row matches). -/
theorem scanMarkers_eq_lastMarkerQty (rows : List InvRow) :
    scanMarkers rows =
      (lastMarkerQty isToppenishMarker rows, lastMarkerQty isYakimaMarker rows) := by
  induction rows using List.reverseRecOn with
  | nil => rfl
  | append_singleton l r ih =>
    rw [scanMarkers_append_single, ih, lastMarkerQty_append_single,
      lastMarkerQty_append_single]

/-- Counterexample for C2: with only the secondary (yakima) marker present
carrying quantity 1 and the primary (toppenish) marker absent, the
validator returns the unmarked verdict ("no_marker"), not wrong_source
("wrong_file") — the absence check takes precedence over the
secondary-quantity check, contradicting "wrong_source whenever the
secondary marker carries quantity 1, for any state of the primary
marker". -/
theorem validator_secondary_one_primary_absent :
    (scanMarkers [InvRow.mk "yakima validation product" "9999" "" "" 0 0 1 0 0 0 0 0 0]).2
        = some 1 ∧
    (scanMarkers [InvRow.mk "yakima validation product" "9999" "" "" 0 0 1 0 0 0 0 0 0]).1
        = none ∧
    (validate_inventory_file
        [InvRow.mk "yakima validation product" "9999" "" "" 0 0 1 0 0 0 0 0 0]).2.1
        = some "no_marker" ∧
    (some "no_marker" : Option String) ≠ some "wrong_file" := by
  refine ⟨by decide, by decide, ?_, by decide⟩
  decide

/-- C2 as amended: `validate_inventory_file` returns the valid verdict
exactly when the primary marker's recorded quantity is 1 and the
secondary's is 0; when BOTH markers are present it returns wrong_source
whenever the secondary carries quantity 1, for any primary quantity, and
also on every other combination except (1, 0); when either marker is
absent it returns unmarked, this check taking precedence. -/
theorem validator_decision_table (rows : List InvRow) :
    (((validate_inventory_file rows).1 = true ∧
        (validate_inventory_file rows).2.1 = none) ↔
      ((scanMarkers rows).1 = some 1 ∧ (scanMarkers rows).2 = some 0)) ∧
    (∀ tq : Int, (scanMarkers rows).1 = some tq → (scanMarkers rows).2 = some 1 →
      (validate_inventory_file rows).1 = false ∧
        (validate_inventory_file rows).2.1 = some "wrong_file") ∧
    (((scanMarkers rows).1 = none ∨ (scanMarkers rows).2 = none) →
      (validate_inventory_file rows).1 = false ∧
        (validate_inventory_file rows).2.1 = some "no_marker") ∧
    (∀ tq yq : Int, (scanMarkers rows).1 = some tq →
      (scanMarkers rows).2 = some yq → ¬(tq = 1 ∧ yq = 0) →
      (validate_inventory_file rows).1 = false ∧
        (validate_inventory_file rows).2.1 = some "wrong_file") := by
  rcases hscan : scanMarkers rows with ⟨t0, y0⟩
  match t0, y0 with
  | none, y0 =>
    have hval : validate_inventory_file rows =
        (false, some "no_marker", "No inventory ID markers found") := by
      rw [validate_inventory_file, hscan]
    refine ⟨?_, ?_, ?_, ?_⟩
    · constructor
      · intro hv; rw [hval] at hv; simp at hv
      · rintro ⟨ht, _⟩; simp at ht
    · intro tq htq _; simp at htq
    · intro _; rw [hval]; exact ⟨rfl, rfl⟩
    · intro tq yq htq _ _; simp at htq
  | some t, none =>
    have hval : validate_inventory_file rows =
        (false, some "no_marker", "No inventory ID markers found") := by
      rw [validate_inventory_file, hscan]
    refine ⟨?_, ?_, ?_, ?_⟩
    · constructor
      · intro hv; rw [hval] at hv; simp at hv
      · rintro ⟨_, hy⟩; simp at hy
    · intro tq _ hy1; simp at hy1
    · intro _; rw [hval]; exact ⟨rfl, rfl⟩
    · intro tq yq _ hyq _; simp at hyq
  | some t, some y =>
    by_cases hok : t = 1 ∧ y = 0
    · have hval : validate_inventory_file rows =
          (true, none, "Correct inventory file (Toppenish=1, Yakima=0)") := by
        rw [validate_inventory_file, hscan]
        simp only [if_pos hok]
      refine ⟨?_, ?_, ?_, ?_⟩
      · constructor
        · intro _
          constructor
          · simp [hok.1]
          · simp [hok.2]
        · intro _; rw [hval]; exact ⟨rfl, rfl⟩
      · intro tq _ hy1
        simp at hy1
        rw [hok.2] at hy1
        exact absurd hy1 (by decide)
      · intro h
        rcases h with h | h <;> simp at h
      · intro tq yq htq hyq hnot
        simp at htq hyq
        subst htq; subst hyq
        exact absurd hok hnot
    · by_cases hy1 : y = 1
      · have hval : validate_inventory_file rows =
            (false, some "wrong_file",
              "Wrong inventory file detected (Yakima=" ++ toString y ++
                ", Toppenish=" ++ toString t ++ ")") := by
          rw [validate_inventory_file, hscan]
          simp only [if_neg hok, if_pos hy1]
        refine ⟨?_, ?_, ?_, ?_⟩
        · constructor
          · intro hv; rw [hval] at hv; simp at hv
          · rintro ⟨h1, h2⟩
            simp at h1 h2
            exact absurd ⟨h1, h2⟩ hok
        · intro tq _ _; rw [hval]; exact ⟨rfl, rfl⟩
        · intro h
          rcases h with h | h <;> simp at h
        · intro tq yq _ _ _; rw [hval]; exact ⟨rfl, rfl⟩
      · have hval : validate_inventory_file rows =
            (false, some "wrong_file",
              "Invalid marker quantities (Toppenish=" ++ toString t ++
                ", Yakima=" ++ toString y ++ ")") := by
          rw [validate_inventory_file, hscan]
          simp only [if_neg hok, if_neg hy1]
        refine ⟨?_, ?_, ?_, ?_⟩
        · constructor
          · intro hv; rw [hval] at hv; simp at hv
          · rintro ⟨h1, h2⟩
            simp at h1 h2
            exact absurd ⟨h1, h2⟩ hok
        · intro tq _ hy
          simp at hy
          exact absurd hy hy1
        · intro h
          rcases h with h | h <;> simp at h
        · intro tq yq _ _ _; rw [hval]; exact ⟨rfl, rfl⟩

/-- Witness for C2 (amended): a concrete file with toppenish marker
quantity 1 and yakima marker quantity 0 validates as valid. -/
theorem validator_decision_table_witness :
    (validate_inventory_file
        [InvRow.mk "toppenish validation product" "99999" "" "" 0 0 1 0 0 0 0 0 0,
         InvRow.mk "yakima validation product" "9999" "" "" 0 0 0 0 0 0 0 0 0]).1
        = true ∧
    (validate_inventory_file
        [InvRow.mk "toppenish validation product" "99999" "" "" 0 0 1 0 0 0 0 0 0,
         InvRow.mk "yakima validation product" "9999" "" "" 0 0 0 0 0 0 0 0 0]).2.1
        = none :=
  (validator_decision_table
    [InvRow.mk "toppenish validation product" "99999" "" "" 0 0 1 0 0 0 0 0 0,
     InvRow.mk "yakima validation product" "9999" "" "" 0 0 0 0 0 0 0 0 0]).1.mpr
    (by constructor <;> decide)

/-!
## Inventory Synchronizer — `sync_inventory` (src/inventory_sync.py:409)

The marker-row filter applied before `clean_data`
(src/inventory_sync.py:462-467) lowercases the product name WITHOUT
stripping it (unlike the validator's scan) and strips the SKU.
-/

/-- The toppenish-marker test of the pre-upsert dataframe filter. -/
def isToppenishFilterRow (r : InvRow) : Bool :=
  hasSub (pyLower r.product_name) "toppenish" && pyStrip r.sku = "99999"

/-- The yakima-marker test of the pre-upsert dataframe filter. -/
def isYakimaFilterRow (r : InvRow) : Bool :=
  hasSub (pyLower r.product_name) "yakima" && pyStrip r.sku = "9999"

/-- The observable outcome of one `sync_inventory` call: its boolean
return value, the files it deleted, whether an upsert request was issued
to the store, and the record batch of a committed upsert. -/
structure SyncOutcome where
  success : Bool
  deleted : List String
  attemptedUpsert : Bool
  committed : Option (List InventoryRecord)
deriving DecidableEq, Repr

/-- The dataframe filter of src/inventory_sync.py:462-467: drop every row
matching either marker test. -/
def markerFilteredRows (df : List InvRow) : List InvRow :=
  df.filter (fun r => !(isToppenishFilterRow r || isYakimaFilterRow r))

/-- `sync_inventory` (src/inventory_sync.py:409): `all_files` is the
candidate set from `get_latest_inventory_file`; `readResult` is the
outcome of `pd.read_excel` on the authoritative file (`none` models a
raised exception, caught by the outer handler); `upsertOk` is whether the
store upsert call returns rather than raises.  Control flow mirrors the
source: no candidates → False; read failure → caught, False, nothing
deleted; wrong_file / no_marker verdict → delete all candidates, no
upsert, False; valid verdict → filter out both marker rows, `clean_data`;
no records → False, nothing deleted; upsert raises → caught, False,
nothing deleted; upsert commits → delete all candidates, True. -/
def sync_inventory (all_files : List String) (readResult : Option (List InvRow))
    (upsertOk : Bool) : SyncOutcome :=
  match all_files with
  | [] => ⟨false, [], false, none⟩
  | _ :: _ =>
    match readResult with
    | none => ⟨false, [], false, none⟩
    | some df =>
      let v := validate_inventory_file df
      if v.2.1 = some "wrong_file" then ⟨false, all_files, false, none⟩
      else if v.2.1 = some "no_marker" then ⟨false, all_files, false, none⟩
      else
        let records := clean_data (markerFilteredRows df)
        if records.isEmpty then ⟨false, [], false, none⟩
        else if upsertOk then ⟨true, all_files, true, some records⟩
        else ⟨false, [], true, none⟩

/-- On a valid verdict, `sync_inventory` reduces to the record-count /
upsert-outcome decision. -/
theorem sync_inventory_valid_case (f : String) (fs : List String)
    (df : List InvRow) (upsertOk : Bool)
    (hv : (validate_inventory_file df).2.1 = none) :
    sync_inventory (f :: fs) (some df) upsertOk =
      (if (clean_data (markerFilteredRows df)).isEmpty
        then ⟨false, [], false, none⟩
        else if upsertOk then
          ⟨true, f :: fs, true, some (clean_data (markerFilteredRows df))⟩
        else ⟨false, [], true, none⟩) := by
  rw [sync_inventory]
  simp only [hv]
  rw [if_neg (by simp), if_neg (by simp)]

/-- C3: for a non-empty, readable candidate set: a committed upsert is
followed by deletion of every candidate file; a wrong_source or unmarked
verdict issues no upsert and deletes every candidate file; and an upsert
that raises deletes nothing, reports failure, and leaves the files for the
next cycle. -/
theorem sync_inventory_deletion_policy (f : String) (fs : List String)
    (df : List InvRow) (upsertOk : Bool) :
    ((sync_inventory (f :: fs) (some df) upsertOk).committed ≠ none →
      (sync_inventory (f :: fs) (some df) upsertOk).deleted = f :: fs ∧
      (sync_inventory (f :: fs) (some df) upsertOk).success = true) ∧
    ((validate_inventory_file df).2.1 = some "wrong_file" ∨
        (validate_inventory_file df).2.1 = some "no_marker" →
      sync_inventory (f :: fs) (some df) upsertOk
        = ⟨false, f :: fs, false, none⟩) ∧
    ((validate_inventory_file df).2.1 = none → upsertOk = false →
      (clean_data (markerFilteredRows df)).isEmpty = false →
      sync_inventory (f :: fs) (some df) upsertOk
        = ⟨false, [], true, none⟩) := by
  have hvcases : (validate_inventory_file df).2.1 = none ∨
      (validate_inventory_file df).2.1 = some "wrong_file" ∨
      (validate_inventory_file df).2.1 = some "no_marker" := by
    rw [validate_inventory_file]
    rcases scanMarkers df with ⟨t0, y0⟩
    match t0, y0 with
    | none, y0 => right; right; rfl
    | some t, none => right; right; rfl
    | some t, some y =>
      by_cases hok : t = 1 ∧ y = 0
      · left; simp [hok]
      · by_cases hy1 : y = 1 <;> simp [hok, hy1]
  refine ⟨?_, ?_, ?_⟩
  · intro hcommit
    rcases hvcases with hv | hv | hv
    · rw [sync_inventory_valid_case f fs df upsertOk hv] at hcommit ⊢
      cases hrec : (clean_data (markerFilteredRows df)).isEmpty with
      | true => rw [if_pos hrec] at hcommit; exact absurd rfl hcommit
      | false =>
        rw [if_neg (by rw [hrec]; exact Bool.false_ne_true)] at hcommit
        rw [if_neg (by exact Bool.false_ne_true)]
        cases upsertOk with
        | true => rw [if_pos rfl]; exact ⟨rfl, rfl⟩
        | false =>
          rw [if_neg (by exact Bool.false_ne_true)] at hcommit
          exact absurd rfl hcommit
    · rw [sync_inventory] at hcommit
      rw [if_pos hv] at hcommit
      exact absurd rfl hcommit
    · rw [sync_inventory] at hcommit
      by_cases hw : (validate_inventory_file df).2.1 = some "wrong_file"
      · rw [if_pos hw] at hcommit; exact absurd rfl hcommit
      · rw [if_neg hw, if_pos hv] at hcommit; exact absurd rfl hcommit
  · intro hv
    rcases hv with hv | hv
    · rw [sync_inventory, if_pos hv]
    · rw [sync_inventory]
      have hnw : (validate_inventory_file df).2.1 ≠ some "wrong_file" := by
        rw [hv]; simp
      rw [if_neg hnw, if_pos hv]
  · intro hv hup hrec
    rw [sync_inventory_valid_case f fs df upsertOk hv,
      if_neg (by rw [hrec]; exact Bool.false_ne_true), hup,
      if_neg (by exact Bool.false_ne_true)]

/-- Witness for C3: a concrete valid two-marker file with one real
product row, a two-file candidate set, and a store whose upsert raises:
nothing is deleted and the operation fails. -/
theorem sync_inventory_deletion_policy_witness :
    sync_inventory ["a.xlsx", "b.xlsx"]
      (some [InvRow.mk "toppenish validation product" "99999" "" "" 0 0 1 0 0 0 0 0 0,
             InvRow.mk "yakima validation product" "9999" "" "" 0 0 0 0 0 0 0 0 0,
             InvRow.mk "widget" "SKU1" "" "" 0 0 0 0 0 0 0 0 0]) false
      = ⟨false, [], true, none⟩ :=
  (sync_inventory_deletion_policy "a.xlsx" ["b.xlsx"]
    [InvRow.mk "toppenish validation product" "99999" "" "" 0 0 1 0 0 0 0 0 0,
     InvRow.mk "yakima validation product" "9999" "" "" 0 0 0 0 0 0 0 0 0,
     InvRow.mk "widget" "SKU1" "" "" 0 0 0 0 0 0 0 0 0] false).2.2
    (by decide) rfl (by decide)

/-- C10: a file that passes validation but, after the marker rows are
filtered out and rows lacking a sku are dropped, yields zero records: no
upsert is issued, no candidate file is deleted, and the call reports
failure — the files are left in place despite the valid verdict. -/
theorem sync_inventory_valid_empty_records (f : String) (fs : List String)
    (df : List InvRow)
    (hvalid : (validate_inventory_file df).2.1 = none)
    (hempty : (clean_data (markerFilteredRows df)).isEmpty = true)
    (upsertOk : Bool) :
    sync_inventory (f :: fs) (some df) upsertOk = ⟨false, [], false, none⟩ := by
  rw [sync_inventory_valid_case f fs df upsertOk hvalid, if_pos hempty]

/-- Witness for C10: a valid file containing only the two marker rows
produces zero records; the candidate files are left in place and the sync
fails. -/
theorem sync_inventory_valid_empty_records_witness :
    sync_inventory ["a.xlsx", "b.xlsx"]
      (some [InvRow.mk "toppenish validation product" "99999" "" "" 0 0 1 0 0 0 0 0 0,
             InvRow.mk "yakima validation product" "9999" "" "" 0 0 0 0 0 0 0 0 0]) true
      = ⟨false, [], false, none⟩ :=
  sync_inventory_valid_empty_records "a.xlsx" ["b.xlsx"]
    [InvRow.mk "toppenish validation product" "99999" "" "" 0 0 1 0 0 0 0 0 0,
     InvRow.mk "yakima validation product" "9999" "" "" 0 0 0 0 0 0 0 0 0]
    (by decide) (by decide) true

/-!
## Sales Aggregator — `process_sales_file` (src/inventory_sync.py:250)

A parsed sales spreadsheet row; float cells are `ℚ`, the `Qty Sold` cell
is integer-coerced.  Date parsing (`strptime`) is abstracted: the date
cell is carried through as a string, which none of the claims touch.
-/

structure SalesRow where
  trans_id : String
  date : String
  qty_sold : Int
  sales : ℚ
  cogs : ℚ
  gross_profit : ℚ
  disc_mkd : ℚ
  tax : ℚ
  receipt_total : ℚ
deriving DecidableEq, Repr

/-- Python's `round(x, n)`-style round-half-to-even at integer precision,
on the exact rational value. -/
def pyRound (q : ℚ) : Int :=
  if q - ⌊q⌋ < 1/2 then ⌊q⌋
  else if q - ⌊q⌋ > 1/2 then ⌊q⌋ + 1
  else if 2 ∣ ⌊q⌋ then ⌊q⌋ else ⌊q⌋ + 1

/-- Python's `round(x, 2)` on the exact rational value. -/
def round2 (q : ℚ) : ℚ := (pyRound (q * 100) : ℚ) / 100

/-- The daily aggregate record `process_sales_file` builds
(src/inventory_sync.py:308-320). -/
structure DailySalesRecord where
  store_name : String
  report_date : String
  total_transactions : Nat
  total_qty_sold : Int
  total_sales : ℚ
  total_cogs : ℚ
  total_gross_profit : ℚ
  avg_gross_margin : ℚ
  total_discounts : ℚ
  total_tax : ℚ
  total_receipts : ℚ
deriving DecidableEq, Repr

/-- The raw (pre-rounding) totals the aggregator computes. -/
structure SalesTotals where
  transactions : Nat
  qty_sold : Int
  sales : ℚ
  cogs : ℚ
  gross_profit : ℚ
  discounts : ℚ
  tax : ℚ
  receipts : ℚ
deriving DecidableEq, Repr

/-- The transaction rows: every row whose Trans ID is not "Total"
(src/inventory_sync.py:260). -/
def salesTxnRows (rows : List SalesRow) : List SalesRow :=
  rows.filter (fun r => r.trans_id ≠ "Total")

/-- The synthetic Total rows: rows whose Trans ID is "Total"
(src/inventory_sync.py:257). -/
def salesTotalRows (rows : List SalesRow) : List SalesRow :=
  rows.filter (fun r => r.trans_id = "Total")

/-- The totals computation (src/inventory_sync.py:279-300): from the
Total row when one exists, otherwise by summing the transaction rows; the
transaction count is the number of transaction rows either way. -/
def computeTotals (txns : List SalesRow) (total_row : Option SalesRow) :
    SalesTotals :=
  match total_row with
  | some row =>
    ⟨txns.length, row.qty_sold, row.sales, row.cogs, row.gross_profit,
      row.disc_mkd, row.tax, row.receipt_total⟩
  | none =>
    ⟨txns.length, (txns.map (fun r => r.qty_sold)).sum,
      (txns.map (fun r => r.sales)).sum, (txns.map (fun r => r.cogs)).sum,
      (txns.map (fun r => r.gross_profit)).sum,
      (txns.map (fun r => r.disc_mkd)).sum, (txns.map (fun r => r.tax)).sum,
      (txns.map (fun r => r.receipt_total)).sum⟩

/-- The average-gross-margin computation (src/inventory_sync.py:302-306):
`gross_profit / sales * 100` when `sales > 0`, else 0. -/
def avgGrossMargin (t : SalesTotals) : ℚ :=
  if t.sales > 0 then t.gross_profit / t.sales * 100 else 0

/-- `process_sales_file` (src/inventory_sync.py:250): `none` when there is
no transaction row (or, in the source, on a parse exception); otherwise
the daily aggregate with monetary/percentage fields rounded to 2
decimals. -/
def process_sales_file (rows : List SalesRow) (store_name : String) :
    Option DailySalesRecord :=
  match salesTxnRows rows with
  | [] => none
  | first :: rest =>
    let t := computeTotals (first :: rest) (salesTotalRows rows).head?
    some
      { store_name := store_name
        report_date := first.date
        total_transactions := t.transactions
        total_qty_sold := t.qty_sold
        total_sales := round2 t.sales
        total_cogs := round2 t.cogs
        total_gross_profit := round2 t.gross_profit
        avg_gross_margin := round2 (avgGrossMargin t)
        total_discounts := round2 t.discounts
        total_tax := round2 t.tax
        total_receipts := round2 t.receipts }

theorem round2_zero : round2 0 = 0 := by
  rw [round2, pyRound]
  norm_num

/-- Counterexample for C8: a sales file whose only transaction carries
negative sales (-100) and negative gross profit (-50).  The code guards
`total_sales > 0`, so the aggregated `avg_gross_margin` is 0, while the
claimed formula `round2(gross_profit / sales * 100)` gives 50 — the claim
"equals gross_profit divided by sales times 100 ... and equals 0 when
sales is 0" fails for negative sales. -/
theorem sales_avg_negative_sales :
    Option.map DailySalesRecord.avg_gross_margin
      (process_sales_file
        [SalesRow.mk "1" "01/02/2024" 1 (-100) 0 (-50) 0 0 0] "Store")
      = some 0 ∧
    round2 ((-50 : ℚ) / (-100) * 100) = 50 ∧
    (0 : ℚ) ≠ 50 := by
  refine ⟨?_, ?_, by norm_num⟩
  · have h0 : avgGrossMargin (SalesTotals.mk 1 1 (-100) 0 (-50) 0 0 0) = 0 := by
      rw [avgGrossMargin]
      norm_num
    simp [process_sales_file, salesTxnRows, salesTotalRows, computeTotals, h0,
      round2_zero]
  · have h1 : ((-50 : ℚ) / (-100) * 100) * 100 = 5000 := by norm_num
    have hf : ⌊(5000 : ℚ)⌋ = 5000 := by
      rw [Int.floor_eq_iff]
      norm_num
    rw [round2, h1, pyRound, hf]
    norm_num

/-- C8 as amended: for every parsed sales file, `avg_gross_margin` equals
`gross_profit / sales * 100` rounded to 2 decimals when the computed sales
total is positive, and equals 0 when it is not positive (the code guards
`total_sales > 0`, so zero AND negative sales give 0). -/
theorem sales_avg_gross_margin (rows : List SalesRow) (store : String)
    (rec : DailySalesRecord)
    (h : process_sales_file rows store = some rec) :
    ((computeTotals (salesTxnRows rows) (salesTotalRows rows).head?).sales > 0 →
      rec.avg_gross_margin = round2
        ((computeTotals (salesTxnRows rows) (salesTotalRows rows).head?).gross_profit /
          (computeTotals (salesTxnRows rows) (salesTotalRows rows).head?).sales * 100)) ∧
    (¬ (computeTotals (salesTxnRows rows) (salesTotalRows rows).head?).sales > 0 →
      rec.avg_gross_margin = 0) := by
  rcases hsplit : salesTxnRows rows with _ | ⟨first, rest⟩
  · rw [process_sales_file, hsplit] at h
    exact absurd h (by simp)
  · rw [process_sales_file, hsplit] at h
    simp only [Option.some.injEq] at h
    constructor
    · intro hpos
      rw [← h]
      show round2 (avgGrossMargin
        (computeTotals (first :: rest) (salesTotalRows rows).head?)) = _
      rw [avgGrossMargin, if_pos hpos]
    · intro hneg
      rw [← h]
      show round2 (avgGrossMargin
        (computeTotals (first :: rest) (salesTotalRows rows).head?)) = 0
      rw [avgGrossMargin, if_neg hneg, round2_zero]

/-- Witness for C8 (amended): the spec's concrete example — a Total row
with Sales 4500.00 and Gross Profit 1200.00 — aggregates to
avg_gross_margin 26.67. -/
theorem sales_avg_gross_margin_witness :
    Option.map DailySalesRecord.avg_gross_margin
      (process_sales_file
        [SalesRow.mk "1" "01/02/2024" 1 4500 0 1200 0 0 0,
         SalesRow.mk "Total" "" 1 4500 0 1200 0 0 0] "Store")
      = some (2667 / 100) := by
  have hp : process_sales_file
      [SalesRow.mk "1" "01/02/2024" 1 4500 0 1200 0 0 0,
       SalesRow.mk "Total" "" 1 4500 0 1200 0 0 0] "Store"
      = some
        { store_name := "Store", report_date := "01/02/2024",
          total_transactions := 1, total_qty_sold := 1,
          total_sales := round2 4500, total_cogs := round2 0,
          total_gross_profit := round2 1200,
          avg_gross_margin :=
            round2 (avgGrossMargin (SalesTotals.mk 1 1 4500 0 1200 0 0 0)),
          total_discounts := round2 0, total_tax := round2 0,
          total_receipts := round2 0 } := by
    simp [process_sales_file, salesTxnRows, salesTotalRows, computeTotals]
  have hpos : (computeTotals
      (salesTxnRows [SalesRow.mk "1" "01/02/2024" 1 4500 0 1200 0 0 0,
        SalesRow.mk "Total" "" 1 4500 0 1200 0 0 0])
      (salesTotalRows [SalesRow.mk "1" "01/02/2024" 1 4500 0 1200 0 0 0,
        SalesRow.mk "Total" "" 1 4500 0 1200 0 0 0]).head?).sales > 0 := by
    simp [salesTxnRows, salesTotalRows, computeTotals]
  have h2 := (sales_avg_gross_margin
    [SalesRow.mk "1" "01/02/2024" 1 4500 0 1200 0 0 0,
     SalesRow.mk "Total" "" 1 4500 0 1200 0 0 0] "Store" _ hp).1 hpos
  rw [hp]
  have hr : round2 ((1200 : ℚ) / 4500 * 100) = 2667 / 100 := by
    have h1 : ((1200 : ℚ) / 4500 * 100) * 100 = 8000 / 3 := by norm_num
    have hf : ⌊(8000 / 3 : ℚ)⌋ = 2666 := by
      rw [Int.floor_eq_iff]
      norm_num
    rw [round2, h1, pyRound, hf]
    norm_num
  have h3 : round2 (avgGrossMargin (SalesTotals.mk 1 1 4500 0 1200 0 0 0))
      = 2667 / 100 := by
    rw [avgGrossMargin]
    rw [if_pos (show (SalesTotals.mk 1 1 4500 0 1200 0 0 0).sales > 0 by norm_num)]
    exact hr
  rw [Option.map_some']
  exact congrArg some h3

/-!
## Order Fulfillment Engine — `print_order_pdf`
(src/inventory_sync.py:1237) and `poll_for_orders_once`
(src/inventory_sync.py:1298)

The remote orders table is a `List Order`.  External effects are supplied
by a `PollEnv`: per order id, the outcome of `create_pdf_order` (`none`
models a raised exception, `some b` its boolean return), of
`send_pdf_to_printer`, of the full-field-set store update (`none` =
committed, `some msg` = raised with message `msg`) and of the reduced
retry update.  `now` is the timestamp string used for the pdf file name
and `printed_at`.
-/

structure Order where
  id : Nat
  order_number : Nat
  printed : Bool
  printed_at : Option String
  pdf_path : Option String
  order_location : String
  created_at : Int
deriving DecidableEq, Repr

/-- One `update(...).eq('id', ...).execute()` call observed at the store:
the field names of its payload and whether it succeeded. -/
structure CommitAttempt where
  fields : List String
  ok : Bool
deriving DecidableEq, Repr

structure PollEnv where
  renderResult : Nat → Option Bool
  printOk : Nat → Bool
  commitFullError : Nat → Option String
  commitReducedOk : Nat → Bool
  now : String
  outDir : String
  storeName : String
  enablePrinter : Bool

/-- The payload fields of the first commit attempt
(src/inventory_sync.py:1269-1273). -/
def fullUpdateFields : List String := ["printed", "printed_at", "pdf_path"]

/-- The payload fields of the schema-mismatch retry
(src/inventory_sync.py:1281-1284). -/
def reducedUpdateFields : List String := ["printed", "printed_at"]

/-- `order_{order_number}_{timestamp}.pdf` (src/inventory_sync.py:1239). -/
def pdfFileName (order_number : Nat) (ts : String) : String :=
  "order_" ++ toString order_number ++ "_" ++ ts ++ ".pdf"

/-- Effect of the committed full-field update: set printed, printed_at
and pdf_path on the row with the given id. -/
def applyUpdateFull (db : List Order) (oid : Nat) (t path : String) : List Order :=
  db.map (fun o => if o.id = oid then
    { o with printed := true, printed_at := some t, pdf_path := some path } else o)

/-- Effect of the committed reduced update: set printed and printed_at
only. -/
def applyUpdateReduced (db : List Order) (oid : Nat) (t : String) : List Order :=
  db.map (fun o => if o.id = oid then
    { o with printed := true, printed_at := some t } else o)

/-- The schema-mismatch test of src/inventory_sync.py:1279: the error
message mentions `pdf_path` or the `PGRST204` code. -/
def schemaMismatchSignal (msg : String) : Bool :=
  hasSub msg "pdf_path" || hasSub msg "PGRST204"

/-- The observable outcome of one `print_order_pdf` call: its return
value (`some path` or None), the orders table afterwards, and the store
update calls it issued. -/
structure PrintResult where
  ret : Option String
  db : List Order
  commits : List CommitAttempt

/-- `print_order_pdf` (src/inventory_sync.py:1237): render the PDF
(exception or False → return None, nothing committed); if
`send_to_printer`, dispatch (failure → return None, nothing committed);
then commit printed/printed_at/pdf_path; on an exception whose message
mentions pdf_path or PGRST204, retry once without pdf_path; any other
exception → return None, nothing further. -/
def print_order_pdf (env : PollEnv) (o : Order) (send_to_printer : Bool)
    (db : List Order) : PrintResult :=
  let pdf_path := env.outDir ++ "/" ++ pdfFileName o.order_number env.now
  match env.renderResult o.id with
  | none => ⟨none, db, []⟩
  | some false => ⟨none, db, []⟩
  | some true =>
    if send_to_printer && !env.printOk o.id then ⟨none, db, []⟩
    else
      match env.commitFullError o.id with
      | none =>
        ⟨some pdf_path, applyUpdateFull db o.id env.now pdf_path,
          [⟨fullUpdateFields, true⟩]⟩
      | some msg =>
        if schemaMismatchSignal msg then
          if env.commitReducedOk o.id then
            ⟨some pdf_path, applyUpdateReduced db o.id env.now,
              [⟨fullUpdateFields, false⟩, ⟨reducedUpdateFields, true⟩]⟩
          else
            ⟨none, db, [⟨fullUpdateFields, false⟩, ⟨reducedUpdateFields, false⟩]⟩
        else ⟨none, db, [⟨fullUpdateFields, false⟩]⟩

/-- The location disjunction of the query
(src/inventory_sync.py:1311). -/
def orderMatchesLocation (store_name : String) (o : Order) : Bool :=
  o.order_location = store_name || o.order_location = "both"

/-- The query of src/inventory_sync.py:1302-1320: unprinted orders,
location-filtered only when the lowercased configured store name is one
of the two known stores, newest-first by created_at. -/
def pollQuery (cfgStoreName : String) (db : List Order) : List Order :=
  let store_name := pyLower cfgStoreName
  if store_name = "yakima" ∨ store_name = "toppenish" then
    sortDescBy (fun o => o.created_at)
      (db.filter (fun o => !o.printed && orderMatchesLocation store_name o))
  else
    sortDescBy (fun o => o.created_at) (db.filter (fun o => !o.printed))

/-- The per-order loop of src/inventory_sync.py:1329-1342, threading the
orders table through each `print_order_pdf` call. -/
def processOrders (env : PollEnv) : List Order → List Order → List Order
  | [], db => db
  | o :: rest, db =>
    processOrders env rest (print_order_pdf env o env.enablePrinter db).db

/-- `poll_for_orders_once` (src/inventory_sync.py:1298): run the query,
process each returned order, return the number of orders in the response
(and, in the embedding, the orders table afterwards). -/
def poll_for_orders_once (env : PollEnv) (db : List Order) : Nat × List Order :=
  let orders := pollQuery env.storeName db
  (orders.length, processOrders env orders db)

theorem mem_pollQuery (cfg : String) (db : List Order) (r : Order) :
    r ∈ pollQuery cfg db ↔ r ∈ db ∧ r.printed = false ∧
      ((pyLower cfg = "yakima" ∨ pyLower cfg = "toppenish") →
        orderMatchesLocation (pyLower cfg) r = true) := by
  rw [pollQuery]
  by_cases h : pyLower cfg = "yakima" ∨ pyLower cfg = "toppenish"
  · rw [if_pos h]
    rw [mem_sortDescBy, List.mem_filter]
    constructor
    · rintro ⟨hm, hf⟩
      rcases Bool.and_eq_true .. |>.mp hf with ⟨hp, hl⟩
      exact ⟨hm, by simpa using hp, fun _ => hl⟩
    · rintro ⟨hm, hp, hl⟩
      exact ⟨hm, by rw [hp]; simpa using hl h⟩
  · rw [if_neg h]
    rw [mem_sortDescBy, List.mem_filter]
    constructor
    · rintro ⟨hm, hf⟩
      exact ⟨hm, by simpa using hf, fun hc => absurd hc h⟩
    · rintro ⟨hm, hp, _⟩
      exact ⟨hm, by simp [hp]⟩

/-- Counterexample for C4: with the configured store name unset (the
empty string, which is not "yakima" or "toppenish"), `poll_for_orders_once`
applies NO location filter: an unprinted order with order_location
"yakima" — equal to neither the configured location ("") nor "both" — is
still returned by the query. -/
theorem poll_query_unconfigured_no_location_filter :
    pollQuery "" [Order.mk 1 100 false none none "yakima" 10]
      = [Order.mk 1 100 false none none "yakima" 10] ∧
    (Order.mk 1 100 false none none "yakima" 10).order_location ≠ pyLower "" ∧
    (Order.mk 1 100 false none none "yakima" 10).order_location ≠ "both" := by
  refine ⟨?_, by decide, by decide⟩
  rw [pollQuery]
  rw [if_neg (by decide)]
  decide

/-- C4 as amended: when the lowercased configured store name is one of
the two known locations, the query returns exactly the unprinted orders
whose order_location equals that lowercased name or "both"; otherwise (the
store name is unset or unrecognized) it returns all unprinted orders with
no location filter.  Either way the result is ordered newest-first by
created_at, and `poll_for_orders_once` returns the number of orders in
that query result. -/
theorem poll_query_characterization (env : PollEnv) (db : List Order) :
    ((poll_for_orders_once env db).1 = (pollQuery env.storeName db).length) ∧
    (∀ r, (pyLower env.storeName = "yakima" ∨ pyLower env.storeName = "toppenish") →
      (r ∈ pollQuery env.storeName db ↔ r ∈ db ∧ r.printed = false ∧
        (r.order_location = pyLower env.storeName ∨ r.order_location = "both"))) ∧
    (∀ r, ¬(pyLower env.storeName = "yakima" ∨ pyLower env.storeName = "toppenish") →
      (r ∈ pollQuery env.storeName db ↔ r ∈ db ∧ r.printed = false)) ∧
    (pollQuery env.storeName db).Sorted
      (fun a b => b.created_at ≤ a.created_at) := by
  refine ⟨rfl, ?_, ?_, ?_⟩
  · intro r h
    rw [mem_pollQuery]
    constructor
    · rintro ⟨hm, hp, hl⟩
      refine ⟨hm, hp, ?_⟩
      have := hl h
      rw [orderMatchesLocation] at this
      rcases Bool.or_eq_true .. |>.mp this with h1 | h1
      · exact Or.inl (by simpa using h1)
      · exact Or.inr (by simpa using h1)
    · rintro ⟨hm, hp, hl⟩
      refine ⟨hm, hp, fun _ => ?_⟩
      rw [orderMatchesLocation]
      rcases hl with h1 | h1 <;> simp [h1]
  · intro r h
    rw [mem_pollQuery]
    constructor
    · rintro ⟨hm, hp, _⟩
      exact ⟨hm, hp⟩
    · rintro ⟨hm, hp⟩
      exact ⟨hm, hp, fun hc => absurd hc h⟩
  · rw [pollQuery]
    by_cases h : pyLower env.storeName = "yakima" ∨ pyLower env.storeName = "toppenish"
    · rw [if_pos h]
      exact sorted_sortDescBy _ _
    · rw [if_neg h]
      exact sorted_sortDescBy _ _

/-- Witness for C4 (amended): a configured name "Yakima" (lowercased to
"yakima") matches an unprinted order located at "both" but the iff rules
out an order located at "toppenish". -/
theorem poll_query_characterization_witness :
    (Order.mk 1 100 false none none "both" 10 ∈
      pollQuery "Yakima" [Order.mk 1 100 false none none "both" 10,
        Order.mk 2 101 false none none "toppenish" 11]) ∧
    (Order.mk 2 101 false none none "toppenish" 11 ∉
      pollQuery "Yakima" [Order.mk 1 100 false none none "both" 10,
        Order.mk 2 101 false none none "toppenish" 11]) := by
  have hmain := poll_query_characterization
    (PollEnv.mk (fun _ => some true) (fun _ => true) (fun _ => none)
      (fun _ => true) "ts" "out" "Yakima" true)
    [Order.mk 1 100 false none none "both" 10,
     Order.mk 2 101 false none none "toppenish" 11]
  constructor
  · exact (hmain.2.1 (Order.mk 1 100 false none none "both" 10)
      (by left; decide)).mpr ⟨by decide, rfl, by right; decide⟩
  · intro hmem
    have := (hmain.2.1 (Order.mk 2 101 false none none "toppenish" 11)
      (by left; decide)).mp hmem
    have hloc := this.2.2
    rcases hloc with h1 | h1
    · exact absurd h1 (by decide)
    · exact absurd h1 (by decide)

/-- C5: when the order's render (and, if dispatching, the dispatch)
succeeded, the printed-state commit tries the full field set
{printed, printed_at, pdf_path} first; if that raises with a message
mentioning pdf_path or the PGRST204 code, exactly one retry is issued
with the reduced set {printed, printed_at}; any other failure triggers no
retry, the call returns None, and the orders table is unchanged (the
order remains unprinted); a committed first attempt issues no retry. -/
theorem commit_schema_mismatch_retry (env : PollEnv) (o : Order) (s : Bool)
    (db : List Order)
    (hrender : env.renderResult o.id = some true)
    (hprint : s = true → env.printOk o.id = true) :
    (∀ msg, env.commitFullError o.id = some msg → schemaMismatchSignal msg = true →
      (print_order_pdf env o s db).commits =
        [CommitAttempt.mk fullUpdateFields false,
         CommitAttempt.mk reducedUpdateFields (env.commitReducedOk o.id)]) ∧
    (∀ msg, env.commitFullError o.id = some msg → schemaMismatchSignal msg = false →
      print_order_pdf env o s db =
        PrintResult.mk none db [CommitAttempt.mk fullUpdateFields false]) ∧
    (env.commitFullError o.id = none →
      (print_order_pdf env o s db).commits =
        [CommitAttempt.mk fullUpdateFields true]) := by
  have hcond : (s && !env.printOk o.id) = false := by
    cases hs : s with
    | false => rfl
    | true => rw [hprint hs]; rfl
  refine ⟨?_, ?_, ?_⟩
  · intro msg hfull hsig
    cases hr : env.commitReducedOk o.id with
    | true => simp [print_order_pdf, hrender, hfull, hcond, hsig, hr]
    | false => simp [print_order_pdf, hrender, hfull, hcond, hsig, hr]
  · intro msg hfull hsig
    simp [print_order_pdf, hrender, hfull, hcond, hsig]
  · intro hfull
    simp [print_order_pdf, hrender, hfull, hcond]

/-- Witness for C5: a store whose full-field update raises with message
"PGRST204" and whose reduced retry commits: the observed update calls are
the failed full attempt and exactly one successful reduced retry. -/
theorem commit_schema_mismatch_retry_witness :
    (print_order_pdf
      (PollEnv.mk (fun _ => some true) (fun _ => true)
        (fun _ => some "PGRST204") (fun _ => true) "ts" "out" "Yakima" true)
      (Order.mk 1 100 false none none "both" 10) true
      [Order.mk 1 100 false none none "both" 10]).commits =
    [CommitAttempt.mk fullUpdateFields false,
     CommitAttempt.mk reducedUpdateFields true] :=
  (commit_schema_mismatch_retry
    (PollEnv.mk (fun _ => some true) (fun _ => true)
      (fun _ => some "PGRST204") (fun _ => true) "ts" "out" "Yakima" true)
    (Order.mk 1 100 false none none "both" 10) true
    [Order.mk 1 100 false none none "both" 10] rfl (fun _ => rfl)).1
    "PGRST204" rfl (by decide)

/-- Case analysis on the orders table after one `print_order_pdf` call:
either it is unchanged, or (render succeeded and, when dispatching,
dispatch succeeded) it is the full or the reduced update of the processed
order's row. -/
theorem print_order_pdf_db_cases (env : PollEnv) (o : Order) (s : Bool)
    (db : List Order) :
    (print_order_pdf env o s db).db = db ∨
    ((env.renderResult o.id = some true ∧ (s = true → env.printOk o.id = true)) ∧
      ((print_order_pdf env o s db).db =
          applyUpdateFull db o.id env.now
            (env.outDir ++ "/" ++ pdfFileName o.order_number env.now) ∨
        (print_order_pdf env o s db).db = applyUpdateReduced db o.id env.now)) := by
  rcases hr : env.renderResult o.id with _ | b
  · left
    simp [print_order_pdf, hr]
  · cases b with
    | false => left; simp [print_order_pdf, hr]
    | true =>
      by_cases hc : (s && !env.printOk o.id) = true
      · left
        simp [print_order_pdf, hr, hc]
      · have hcf : (s && !env.printOk o.id) = false := by
          cases hx : (s && !env.printOk o.id) with
          | false => rfl
          | true => exact absurd hx hc
        have hps : s = true → env.printOk o.id = true := by
          intro hs
          rw [hs] at hcf
          simpa using hcf
        rcases hf : env.commitFullError o.id with _ | msg
        · right
          exact ⟨⟨rfl, hps⟩, Or.inl (by simp [print_order_pdf, hr, hcf, hf])⟩
        · by_cases hsig : schemaMismatchSignal msg = true
          · cases hred : env.commitReducedOk o.id with
            | true =>
              right
              exact ⟨⟨rfl, hps⟩,
                Or.inr (by simp [print_order_pdf, hr, hcf, hf, hsig, hred])⟩
            | false =>
              left
              simp [print_order_pdf, hr, hcf, hf, hsig, hred]
          · left
            simp [print_order_pdf, hr, hcf, hf, hsig]

/-- Each row of `db'` descends from a row of `db` with the same id,
location and creation time, and can only have become printed if its
render succeeded and (when printing is enabled) its dispatch
succeeded. -/
def TracksTo (env : PollEnv) (db db' : List Order) : Prop :=
  ∀ q' ∈ db', ∃ q ∈ db, q'.id = q.id ∧ q'.order_location = q.order_location ∧
    q'.created_at = q.created_at ∧
    (q'.printed = true → q.printed = true ∨
      (env.renderResult q'.id = some true ∧
        (env.enablePrinter = true → env.printOk q'.id = true)))

theorem tracksTo_refl (env : PollEnv) (db : List Order) : TracksTo env db db :=
  fun q' hq' => ⟨q', hq', rfl, rfl, rfl, fun hp => Or.inl hp⟩

theorem tracksTo_trans (env : PollEnv) (db db' db'' : List Order)
    (h1 : TracksTo env db db') (h2 : TracksTo env db' db'') :
    TracksTo env db db'' := by
  intro q'' hq''
  obtain ⟨q', hq', hid2, hloc2, hcr2, hp2⟩ := h2 q'' hq''
  obtain ⟨q, hq, hid1, hloc1, hcr1, hp1⟩ := h1 q' hq'
  refine ⟨q, hq, hid2.trans hid1, hloc2.trans hloc1, hcr2.trans hcr1, ?_⟩
  intro hp
  rcases hp2 hp with hp' | hcond
  · rcases hp1 hp' with hqp | hcond
    · exact Or.inl hqp
    · right
      rw [hid2]
      exact hcond
  · exact Or.inr hcond

theorem tracksTo_step (env : PollEnv) (o : Order) (db : List Order) :
    TracksTo env db (print_order_pdf env o env.enablePrinter db).db := by
  rcases print_order_pdf_db_cases env o env.enablePrinter db with h | ⟨⟨hrend, hpok⟩, h⟩
  · rw [h]
    exact tracksTo_refl env db
  · intro q' hq'
    rcases h with h | h
    · rw [h, applyUpdateFull] at hq'
      rcases List.mem_map.mp hq' with ⟨q, hq, hfq⟩
      by_cases hid : q.id = o.id
      · rw [if_pos hid] at hfq
        subst hfq
        refine ⟨q, hq, rfl, rfl, rfl, fun _ => Or.inr ?_⟩
        constructor
        · show env.renderResult q.id = some true
          rw [hid]
          exact hrend
        · intro he
          show env.printOk q.id = true
          rw [hid]
          exact hpok he
      · rw [if_neg hid] at hfq
        subst hfq
        exact ⟨q, hq, rfl, rfl, rfl, fun hp => Or.inl hp⟩
    · rw [h, applyUpdateReduced] at hq'
      rcases List.mem_map.mp hq' with ⟨q, hq, hfq⟩
      by_cases hid : q.id = o.id
      · rw [if_pos hid] at hfq
        subst hfq
        refine ⟨q, hq, rfl, rfl, rfl, fun _ => Or.inr ?_⟩
        constructor
        · show env.renderResult q.id = some true
          rw [hid]
          exact hrend
        · intro he
          show env.printOk q.id = true
          rw [hid]
          exact hpok he
      · rw [if_neg hid] at hfq
        subst hfq
        exact ⟨q, hq, rfl, rfl, rfl, fun hp => Or.inl hp⟩

theorem processOrders_tracks (env : PollEnv) (orders : List Order) :
    ∀ db, TracksTo env db (processOrders env orders db) := by
  induction orders with
  | nil => intro db; exact tracksTo_refl env db
  | cons o rest ih =>
    intro db
    exact tracksTo_trans env db _ _ (tracksTo_step env o db)
      (ih (print_order_pdf env o env.enablePrinter db).db)

/-- A dispatch failure short-circuits before any store update: the call
returns None, the table is unchanged, and no update call is issued. -/
theorem print_order_pdf_dispatch_failed (env : PollEnv) (r : Order)
    (db : List Order)
    (hrend : env.renderResult r.id = some true)
    (hfail : env.printOk r.id = false) :
    print_order_pdf env r true db = PrintResult.mk none db [] := by
  simp [print_order_pdf, hrend, hfail]

theorem print_order_pdf_preserves_failed_row (env : PollEnv) (o : Order)
    (s : Bool) (db : List Order) (r : Order)
    (hs : s = true) (hfail : env.printOk r.id = false) (hr : r ∈ db) :
    r ∈ (print_order_pdf env o s db).db := by
  rcases print_order_pdf_db_cases env o s db with h | ⟨⟨_, hpok⟩, h⟩
  · rw [h]
    exact hr
  · have hpo := hpok hs
    have hne : r.id ≠ o.id := by
      intro he
      rw [he, hpo] at hfail
      exact absurd hfail (by simp)
    rcases h with h | h
    · rw [h, applyUpdateFull]
      exact List.mem_map.mpr ⟨r, hr, by rw [if_neg hne]⟩
    · rw [h, applyUpdateReduced]
      exact List.mem_map.mpr ⟨r, hr, by rw [if_neg hne]⟩

theorem processOrders_preserves_failed_row (env : PollEnv)
    (henable : env.enablePrinter = true) (r : Order)
    (hfail : env.printOk r.id = false) :
    ∀ (orders : List Order) (db : List Order), r ∈ db →
      r ∈ processOrders env orders db := by
  intro orders
  induction orders with
  | nil => intro db hr; exact hr
  | cons o rest ih =>
    intro db hr
    exact ih _ (print_order_pdf_preserves_failed_row env o env.enablePrinter
      db r henable hfail hr)

/-- C1: over one full `poll_for_orders_once` pass, (a) any order printed
in the resulting table was already printed, or its render succeeded and —
when printing is enabled — its dispatch succeeded; and (b) an order of
the query set whose dispatch fails gets no store update issued at all,
remains unprinted, and is matched again by the query run on the resulting
table (the next poll). -/
theorem order_printed_only_after_success (env : PollEnv) (db : List Order) :
    (∀ q', q' ∈ (poll_for_orders_once env db).2 → q'.printed = true →
      (∃ q ∈ db, q'.id = q.id ∧ q.printed = true) ∨
      (env.renderResult q'.id = some true ∧
        (env.enablePrinter = true → env.printOk q'.id = true))) ∧
    (∀ r, r ∈ pollQuery env.storeName db → env.enablePrinter = true →
      env.renderResult r.id = some true → env.printOk r.id = false →
      (print_order_pdf env r env.enablePrinter db).commits = [] ∧
      r.printed = false ∧
      r ∈ pollQuery env.storeName (poll_for_orders_once env db).2) := by
  constructor
  · intro q' hq' hp
    obtain ⟨q, hq, hid, _, _, hprint⟩ :=
      processOrders_tracks env (pollQuery env.storeName db) db q' hq'
    rcases hprint hp with h | h
    · exact Or.inl ⟨q, hq, hid, h⟩
    · exact Or.inr h
  · intro r hrq henable hrend hfail
    have hmem := (mem_pollQuery env.storeName db r).mp hrq
    refine ⟨?_, hmem.2.1, ?_⟩
    · rw [henable, print_order_pdf_dispatch_failed env r db hrend hfail]
    · have hr' : r ∈ (poll_for_orders_once env db).2 :=
        processOrders_preserves_failed_row env henable r hfail
          (pollQuery env.storeName db) db hmem.1
      exact (mem_pollQuery _ _ _).mpr ⟨hr', hmem.2.1, hmem.2.2⟩

/-- Witness for C1: printing enabled, render succeeds, the printer
dispatch is forced to fail: the order's step issues no store update, the
order is unprinted, and the same order is returned by the query over the
post-pass table. -/
theorem order_printed_only_after_success_witness :
    (print_order_pdf
      (PollEnv.mk (fun _ => some true) (fun _ => false) (fun _ => none)
        (fun _ => true) "ts" "out" "Yakima" true)
      (Order.mk 1 100 false none none "both" 10) true
      [Order.mk 1 100 false none none "both" 10]).commits = [] ∧
    (Order.mk 1 100 false none none "both" 10).printed = false ∧
    (Order.mk 1 100 false none none "both" 10) ∈
      pollQuery "Yakima"
        (poll_for_orders_once
          (PollEnv.mk (fun _ => some true) (fun _ => false) (fun _ => none)
            (fun _ => true) "ts" "out" "Yakima" true)
          [Order.mk 1 100 false none none "both" 10]).2 :=
  (order_printed_only_after_success
    (PollEnv.mk (fun _ => some true) (fun _ => false) (fun _ => none)
      (fun _ => true) "ts" "out" "Yakima" true)
    [Order.mk 1 100 false none none "both" 10]).2
    (Order.mk 1 100 false none none "both" 10) (by decide) rfl rfl rfl

end InventorySync
